import Mathlib

/-!
Shallow embedding of `src/app.py` of the document-intelligence repository.

The application is a linear batch pipeline: for each uploaded file it
extracts text (via an external OCR collaborator, with a special path for
`.docx` containers) and classifies the text with an LLM collaborator,
collecting one result row per file.  External collaborators (Azure
Document Intelligence OCR, the docx container parser, the chat-completion
endpoint) are modelled as oracle functions packaged in a `Collaborators`
structure; a collaborator call that raises an exception is modelled as
`Except.error` carrying the exception's string rendering (`str(e)`).

Python string methods used by the code (`str.lower`, `str.endswith`,
`str.strip`, `"\n".join`, `filter(None, ...)`) are modelled by
list-of-characters functions so that every definition is executable.
-/

namespace DocIntel

/-- Model of Python `str.lower` (ASCII case mapping, which is all the code
relies on: it lowercases a file name before testing the `.docx` suffix). -/
def pyLower (s : String) : String := ⟨s.data.map Char.toLower⟩

/-- Model of Python `str.endswith`. -/
def pyEndsWith (s suffixStr : String) : Bool := suffixStr.data.isSuffixOf s.data

/-- Model of Python `str.strip` with no arguments: drop leading and trailing
whitespace. -/
def pyStrip (s : String) : String :=
  ⟨((s.data.dropWhile Char.isWhitespace).reverse.dropWhile Char.isWhitespace).reverse⟩

/-- An uploaded file as supplied by the upload surface: a name and raw bytes.
The byte-blob type is abstract (`β`). -/
structure UploadedFile (β : Type) where
  name : String
  bytes : β
  deriving Repr, DecidableEq

/-- The external collaborators behind the pipeline, as oracles.

* `ocr b` models `client.begin_analyze_document(model_id="prebuilt-read", ...)`
  followed by `poller.result()`: it yields the recognized pages, each an
  ordered list of line contents (`result.pages` / `page.lines` /
  `line.content`), or an error.
* `parseDocx b` models `docx.Document(...)` plus the iteration over
  `doc.paragraphs` and the image relationship records `doc.part.rels`:
  it yields the ordered paragraph texts and the ordered embedded image
  blobs, or an error.  Note: the program calls this path with the raw
  upload bytes (src/app.py line 126) although `extract_text_from_docx`
  declares `path: str`; python-docx forwards a non-str argument as a
  file-like stream to `zipfile.ZipFile`, which calls `.seek` on it, and a
  `bytes` object has no `.seek` — so for the input the loop actually
  passes, the parse always raises and only the `.error` branch is
  reachable.  The `.ok` branch expresses the container parse the body of
  `extract_text_from_docx` is written against; the program as written
  never reaches it (see the C6 theorem).
* `llm msgs` models `llm_client.invoke(messages)` followed by
  `response.content`: it yields the free-text response to a list of
  (role, content) messages, or an error. -/
structure Collaborators (β : Type) where
  ocr : β → Except String (List (List String))
  parseDocx : β → Except String (List String × List β)
  llm : List (String × String) → Except String String

variable {β : Type}

/-- A row of the result table.  The Python code appends a dict per file;
`confidence` is `some v` when the dict has a `"Confidence"` key with value
`v`, and `none` when the dict has only `"File Name"` and `"Category"`. -/
structure ResultRow where
  fileName : String
  category : String
  confidence : Option String
  deriving Repr, DecidableEq

/-- Embedding of `extract_text_from_file` (src/app.py lines 59-74): submit
the whole file to the OCR collaborator, then append `line.content` for every
page in order and every line of the page in order, and join with newline. -/
def extract_text_from_file (C : Collaborators β) (file_bytes : β) : Except String String :=
  match C.ocr file_bytes with
  | .error e => .error e
  | .ok pages =>
      let text_output :=
        pages.foldl (fun acc page => page.foldl (fun acc2 line => acc2 ++ [line]) acc) []
      .ok (String.intercalate "\n" text_output)

/-- Embedding of the image loop of `extract_text_from_docx` (src/app.py
lines 43-55): starting from the already-collected texts, OCR each embedded
image in order and append its recognized lines page by page; the first OCR
error aborts the whole extraction. -/
def ocrImages (C : Collaborators β) (acc : List String) : List β → Except String (List String)
  | [] => .ok acc
  | image_data :: rest =>
      match C.ocr image_data with
      | .error e => .error e
      | .ok pages =>
          ocrImages C
            (pages.foldl (fun a page => page.foldl (fun a2 line => a2 ++ [line]) a) acc) rest

/-- Embedding of `extract_text_from_docx` (src/app.py lines 34-57): collect
the paragraph texts verbatim, then the OCR lines of every embedded image,
and return `"\n".join(filter(None, extracted_text))` — the newline join of
the collected texts with empty entries dropped. -/
def extract_text_from_docx (C : Collaborators β) (file_bytes : β) : Except String String :=
  match C.parseDocx file_bytes with
  | .error e => .error e
  | .ok (paras, images) =>
      match ocrImages C paras images with
      | .error e => .error e
      | .ok extracted_text =>
          .ok (String.intercalate "\n" (extracted_text.filter (fun s => s != "")))

/-- The fixed system instruction of `process_with_llm` (src/app.py
lines 80-95). -/
def systemPrompt : String :=
  "You are a legal document classifier. Classify the given text as either 'Judgement' or 'Non-Judgement'. " ++
  "Judgments often explicitly state JUDGMENT, 'FINAL JUDGMENT,' 'ORDER AND JUDGMENT,' or 'DECREE' at the top. This is a very strong indicator. " ++
  "Case Caption: All court documents have this, but a judgment will clearly state the court, case name, and docket number. " ++
  "Signature Block: The judge's signature, date of judgment, and sometimes the clerk's attestation. " ++
  "Keywords indicating Non-Judgment: " ++
  "'COMPLAINT' (especially in the title), " ++
  "'MOTION to...', " ++
  "'BRIEF in Support/Opposition', " ++
  "'NOTICE of...', " ++
  "'STIPULATION', " ++
  "'AFFIDAVIT', " ++
  "'REQUEST for Production', " ++
  "'VERIFIED PETITION'."

/-- Embedding of `process_with_llm` (src/app.py lines 76-103): send the
system prompt and the extracted text as the two messages, and return
`response.content.strip()`. -/
def process_with_llm (C : Collaborators β) (extracted_text : String) : Except String String :=
  match C.llm [("system", systemPrompt), ("user", extracted_text)] with
  | .error e => .error e
  | .ok content => .ok (pyStrip content)

/-- The keyword arguments the program passes when constructing the
`AzureChatOpenAI` chat client (src/app.py lines 24-30).  Fields not passed
keep their library default; in particular no `temperature` argument
appears at the call site, so `temperature` defaults to `none` (unset). -/
structure AzureChatOpenAIArgs where
  api_key : Option String
  azure_endpoint : Option String
  deployment_name : Option String
  model : Option String
  api_version : Option String
  temperature : Option ℚ := none
  deriving Repr, DecidableEq

/-- Embedding of the `llm_client = AzureChatOpenAI(...)` construction
(src/app.py lines 24-30), parameterized by the environment (`os.getenv`). -/
def llm_client (getenv : String → Option String) : AzureChatOpenAIArgs :=
  { api_key := getenv "AZURE_OPENAI_API_KEY"
    azure_endpoint := getenv "AZURE_OPENAI_ENDPOINT"
    deployment_name := getenv "deployment_name"
    model := getenv "MODEL_NAME"
    api_version := getenv "API_VERSION" }

/-- Outcome of processing one uploaded file in the main loop: the appended
result row, how many times the LLM collaborator was invoked for this file,
and whether the docx extraction path was taken. -/
structure FileOutcome where
  row : ResultRow
  llmCalls : Nat
  usedDocx : Bool
  deriving Repr, DecidableEq

/-- The extraction dispatch of the main loop (src/app.py lines 125-128):
the docx path if and only if the lowercased file name ends with ".docx",
otherwise the whole-file OCR path. -/
def extractDispatch (C : Collaborators β) (f : UploadedFile β) : Except String String :=
  if pyEndsWith (pyLower f.name) ".docx" then extract_text_from_docx C f.bytes
  else extract_text_from_file C f.bytes

/-- Embedding of one iteration of the main loop (src/app.py lines 121-149):
extract text, short-circuit to "Unclassified" when the stripped text is
empty, otherwise classify with the LLM; any exception `e` raised by
extraction or classification is caught and recorded as a row whose category
is `str(e)`. -/
def processFile (C : Collaborators β) (f : UploadedFile β) : FileOutcome :=
  match extractDispatch C f with
  | .error e => ⟨⟨f.name, e, none⟩, 0, pyEndsWith (pyLower f.name) ".docx"⟩
  | .ok extracted_text =>
      if pyStrip extracted_text = "" then
        ⟨⟨f.name, "Unclassified", none⟩, 0, pyEndsWith (pyLower f.name) ".docx"⟩
      else
        match process_with_llm C extracted_text with
        | .error e => ⟨⟨f.name, e, none⟩, 1, pyEndsWith (pyLower f.name) ".docx"⟩
        | .ok category => ⟨⟨f.name, category, none⟩, 1, pyEndsWith (pyLower f.name) ".docx"⟩

/-- Embedding of the main loop over `uploaded_files` (src/app.py
lines 119-149): process the files in order, appending one row each. -/
def processBatch (C : Collaborators β) (files : List (UploadedFile β)) : List ResultRow :=
  files.map (fun f => (processFile C f).row)

end DocIntel

namespace ModelVariant

/-! Embedding of the commented-out model-based classifier variant at the
bottom of src/app.py (lines 186-215): each file's bytes are sent to
`client.begin_classify_document`; the response carries a list of classified
documents, each with a declared type and a confidence score. -/

/-- One classified document of the collaborator's response
(`result.documents[i]`), with its declared type and confidence score. -/
structure ClassifiedDoc where
  doc_type : String
  confidence : ℚ
  deriving Repr, DecidableEq

/-- The collaborator's classification response (`poller.result()`). -/
structure ClassifyResult where
  documents : List ClassifiedDoc
  deriving Repr, DecidableEq

/-- Model of the Python f-string `f"{c:.2%}"`: the value times 100,
rendered with two digits after the decimal point, suffixed with `%`. -/
def formatPercent (q : ℚ) : String :=
  let cents : ℤ := round (q * 10000)
  let n : ℕ := cents.natAbs
  let fracStr := (if n % 100 < 10 then "0" else "") ++ toString (n % 100)
  (if cents < 0 then "-" else "") ++ toString (n / 100) ++ "." ++ fracStr ++ "%"

/-- Embedding of one iteration of the model-variant loop (src/app.py
lines 185-215): classify the bytes; an empty `documents` list yields the
"Unclassified"/"N/A" row, a non-empty one yields the first document's
declared type with its confidence formatted as a percentage, and an
exception yields an "Error" row carrying `str(e)`. -/
def classifyFile {β : Type} (classify : β → Except String ClassifyResult)
    (f : DocIntel.UploadedFile β) : DocIntel.ResultRow :=
  match classify f.bytes with
  | .error e => ⟨f.name, "Error", some e⟩
  | .ok result =>
      match result.documents with
      | [] => ⟨f.name, "Unclassified", some "N/A"⟩
      | doc :: _ => ⟨f.name, doc.doc_type, some (formatPercent doc.confidence)⟩

end ModelVariant

namespace DocIntel

/-! Concrete collaborator fixtures used to witness the theorems on
concrete inputs.  The byte-blob type is instantiated with `Nat`. -/

/-- A collaborator whose OCR call raises on blob 0 and otherwise recognizes
one line, whose docx parse always raises, and whose LLM answers
"Judgement". -/
def CWerr : Collaborators Nat :=
  { ocr := fun b =>
      if b = 0 then .error "Operation returned an invalid status code"
      else .ok [["FINAL JUDGMENT"]]
    parseDocx := fun _ => .error "file is not a zip file"
    llm := fun _ => .ok "Judgement" }

/-- A collaborator whose OCR recognizes only a whitespace line and a blank
line (an empty scan). -/
def CWblank : Collaborators Nat :=
  { ocr := fun _ => .ok [[" ", ""]]
    parseDocx := fun _ => .error "file is not a zip file"
    llm := fun _ => .ok "Judgement" }

/-- A collaborator whose OCR recognizes two pages of a judgment. -/
def CWpages : Collaborators Nat :=
  { ocr := fun _ =>
      .ok [["IN THE CIRCUIT COURT", "CASE NO. 2021-123"], ["FINAL JUDGMENT"]]
    parseDocx := fun _ => .error "file is not a zip file"
    llm := fun _ => .ok "Judgement" }

/-- A collaborator whose docx parse does what `docx.Document` does on the
raw bytes the main loop actually passes (src/app.py line 126): python-docx
hands a non-str argument as a file-like stream to `zipfile.ZipFile`, which
calls `.seek` on it, so every bytes input — here blob 7 standing for the
uploaded docx with paragraphs "Case No. 123" and "" and one embedded image
reading "FINAL JUDGMENT" — raises AttributeError before any paragraph or
image is read. -/
def CWdocxBytes : Collaborators Nat :=
  { ocr := fun _ => .ok [["FINAL JUDGMENT"]]
    parseDocx := fun _ => .error "AttributeError: 'bytes' object has no attribute 'seek'"
    llm := fun _ => .ok "Judgement" }

/-- A collaborator whose LLM answers with padded free text outside the
two-label set. -/
def CWfree : Collaborators Nat :=
  { ocr := fun _ => .ok [["FINAL JUDGMENT"]]
    parseDocx := fun _ => .error "file is not a zip file"
    llm := fun _ => .ok "  This document is a Judgement.  " }

end DocIntel

namespace ModelVariant

/-- A document-classifier collaborator returning zero classified documents. -/
def classifyEmpty : Nat → Except String ClassifyResult := fun _ => .ok ⟨[]⟩

/-- A document-classifier collaborator returning one classified document of
type "Judgement" with confidence 0.873. -/
def classifyJudgement : Nat → Except String ClassifyResult :=
  fun _ => .ok ⟨[⟨"Judgement", 873/1000⟩]⟩

end ModelVariant

namespace DocIntel

/-! Helper lemmas. -/

/-- Folding append-singleton over a list appends the list. -/
theorem foldl_append_singleton {α : Type} (l : List α) (a : List α) :
    l.foldl (fun acc x => acc ++ [x]) a = a ++ l := by
  induction l generalizing a with
  | nil => simp
  | cons x xs ih => simp [List.foldl, ih]

/-- The nested page/line fold of the extraction functions appends the
flattened pages. -/
theorem pages_foldl_join (pages : List (List String)) (acc : List String) :
    pages.foldl (fun a page => page.foldl (fun a2 line => a2 ++ [line]) a) acc =
      acc ++ pages.flatten := by
  induction pages generalizing acc with
  | nil => simp
  | cons p ps ih =>
    rw [List.foldl_cons, foldl_append_singleton, ih]
    simp

/-- The image-OCR loop, when every image OCR succeeds, appends all the
recognized lines in order. -/
theorem ocrImages_ok {β : Type} (C : Collaborators β) :
    ∀ (images : List β) (pagess : List (List (List String))) (acc : List String),
      List.Forall₂ (fun img pages => C.ocr img = .ok pages) images pagess →
      ocrImages C acc images = .ok (acc ++ (pagess.map List.flatten).flatten) := by
  intro images
  induction images with
  | nil =>
    intro pagess acc h
    cases h
    simp [ocrImages]
  | cons i is ih =>
    intro pagess acc h
    cases h with
    | cons hp hrest =>
      rw [ocrImages, hp]
      dsimp only
      rw [pages_foldl_join, ih _ _ hrest]
      simp

variable {β : Type}

/-- Structural facts about one loop iteration, in every branch: the row
carries the input file's name, the row has no confidence field, and the
docx flag is the lowercased-name suffix test. -/
theorem processFile_shape (C : Collaborators β) (f : UploadedFile β) :
    (processFile C f).row.fileName = f.name ∧
    (processFile C f).row.confidence = none ∧
    (processFile C f).usedDocx = pyEndsWith (pyLower f.name) ".docx" := by
  unfold processFile
  cases extractDispatch C f with
  | error e => exact ⟨rfl, rfl, rfl⟩
  | ok t =>
    dsimp only
    by_cases h : pyStrip t = ""
    · rw [if_pos h]
      exact ⟨rfl, rfl, rfl⟩
    · rw [if_neg h]
      cases process_with_llm C t with
      | error e => exact ⟨rfl, rfl, rfl⟩
      | ok category => exact ⟨rfl, rfl, rfl⟩

/-! Claim theorems. -/

/-- C1: for every batch of N uploaded files and every behavior of the
collaborators, the orchestrator produces exactly N result rows, and row i
carries the name of input file i — ordering matches input order whatever
each file's success, emptiness, or failure. -/
theorem C1_batch_length_and_order (C : Collaborators β) (files : List (UploadedFile β)) :
    (processBatch C files).length = files.length ∧
    (processBatch C files).map ResultRow.fileName = files.map UploadedFile.name := by
  constructor
  · simp [processBatch]
  · simp only [processBatch, List.map_map]
    exact List.map_congr_left fun f _ => (processFile_shape C f).1

/-- C2: a file whose extraction step or classification step raises an error
`e` yields, in place, a result row whose category is the diagnostic string
`e`; the rows of the files before and after it are exactly the rows they
would get on their own, so no single file's failure aborts the batch or
propagates past it. -/
theorem C2_failure_isolated (C : Collaborators β) (pre post : List (UploadedFile β))
    (f : UploadedFile β) (e : String)
    (h : extractDispatch C f = .error e ∨
      ∃ t, extractDispatch C f = .ok t ∧ pyStrip t ≠ "" ∧ process_with_llm C t = .error e) :
    processBatch C (pre ++ f :: post) =
      processBatch C pre ++ ⟨f.name, e, none⟩ :: processBatch C post := by
  have hrow : (processFile C f).row = ⟨f.name, e, none⟩ := by
    rcases h with h | ⟨t, ht, hne, hl⟩
    · unfold processFile
      rw [h]
    · unfold processFile
      rw [ht]
      dsimp only
      rw [if_neg hne, hl]
  simp [processBatch, hrow]

/-- Witness for C2: in a three-file batch whose middle file's OCR call
raises, the middle row records the exception text and the neighbours are
processed normally. -/
theorem C2_failure_isolated_witness :
    extractDispatch CWerr ⟨"b.pdf", 0⟩ = .error "Operation returned an invalid status code" ∧
    processBatch CWerr [⟨"a.pdf", 1⟩, ⟨"b.pdf", 0⟩, ⟨"c.png", 2⟩] =
      processBatch CWerr [⟨"a.pdf", 1⟩] ++
        ⟨"b.pdf", "Operation returned an invalid status code", none⟩ ::
          processBatch CWerr [⟨"c.png", 2⟩] :=
  ⟨rfl,
    C2_failure_isolated CWerr [⟨"a.pdf", 1⟩] [⟨"c.png", 2⟩] ⟨"b.pdf", 0⟩
      "Operation returned an invalid status code" (Or.inl rfl)⟩

/-- C3: a file whose extracted text is empty or whitespace-only gets the row
category exactly "Unclassified", and the LLM collaborator is invoked zero
times for it. -/
theorem C3_empty_text_short_circuit (C : Collaborators β) (f : UploadedFile β) (t : String)
    (hext : extractDispatch C f = .ok t) (hempty : pyStrip t = "") :
    (processFile C f).row = ⟨f.name, "Unclassified", none⟩ ∧
    (processFile C f).llmCalls = 0 := by
  unfold processFile
  rw [hext]
  dsimp only
  rw [if_pos hempty]
  exact ⟨rfl, rfl⟩

/-- Witness for C3: an empty scan extracts to the whitespace-only text
" \n", and its row is "Unclassified" with no LLM call. -/
theorem C3_empty_text_short_circuit_witness :
    extractDispatch CWblank ⟨"scan.png", 0⟩ = .ok " \n" ∧ pyStrip " \n" = "" ∧
    ((processFile CWblank ⟨"scan.png", 0⟩).row = ⟨"scan.png", "Unclassified", none⟩ ∧
      (processFile CWblank ⟨"scan.png", 0⟩).llmCalls = 0) :=
  ⟨rfl, rfl, C3_empty_text_short_circuit CWblank ⟨"scan.png", 0⟩ " \n" rfl rfl⟩

/-- C4 counterexample: the chat client is constructed (src/app.py
lines 24-30) without any temperature argument, so the decoding temperature
passed to the chat-completion collaborator is not 0 — it is unset. -/
theorem C4_cex_temperature_not_zero :
    (llm_client fun _ => none).temperature ≠ some 0 := by
  simp [llm_client]

/-- C4 (amended): for every environment, the constructed chat client
carries no decoding temperature at all — the application never passes one,
so the collaborator's library default applies rather than a fixed 0. -/
theorem C4_amended_temperature_unset (getenv : String → Option String) :
    (llm_client getenv).temperature = none := rfl

/-- C5: for a file sent whole to the OCR collaborator, the extracted text
is the newline join of all recognized lines, across pages in page order and
within each page in line order. -/
theorem C5_ocr_concatenation (C : Collaborators β) (file_bytes : β)
    (pages : List (List String)) (h : C.ocr file_bytes = .ok pages) :
    extract_text_from_file C file_bytes = .ok (String.intercalate "\n" pages.flatten) := by
  unfold extract_text_from_file
  rw [h]
  dsimp only
  rw [pages_foldl_join]
  rfl

/-- Witness for C5: a two-page scan with two lines then one line extracts
to the three lines joined by newline. -/
theorem C5_ocr_concatenation_witness :
    CWpages.ocr 0 = .ok [["IN THE CIRCUIT COURT", "CASE NO. 2021-123"], ["FINAL JUDGMENT"]] ∧
    extract_text_from_file CWpages 0 =
      .ok "IN THE CIRCUIT COURT\nCASE NO. 2021-123\nFINAL JUDGMENT" := by
  refine ⟨rfl, ?_⟩
  rw [C5_ocr_concatenation CWpages 0 _ rfl]
  rfl

/-- C6 (code bug): the claimed docx extraction never happens.  The main
loop hands the raw upload bytes to `extract_text_from_docx` (src/app.py
lines 122 and 126), whose first statement passes them to `docx.Document` —
a parameter declared `path: str` — and the python-docx zip layer raises
AttributeError on every bytes input before any paragraph or image is read.
At the failing input, a docx-named upload of the two-paragraph, one-image
example document, the pipeline therefore records an error row instead of
the claimed extraction "Case No. 123\nFINAL JUDGMENT". -/
theorem C6_docx_path_always_raises :
    processBatch CWdocxBytes [⟨"judgment.docx", 7⟩] =
      [⟨"judgment.docx", "AttributeError: 'bytes' object has no attribute 'seek'", none⟩] := by
  decide

/-- C7: for non-empty extracted text, the recorded category is exactly the
chat collaborator's response text trimmed of surrounding whitespace, used
verbatim — the theorem holds for every response `r`, with no validation or
normalization against the Judgement / Non-Judgement label set. -/
theorem C7_category_verbatim (C : Collaborators β) (f : UploadedFile β) (t r : String)
    (hext : extractDispatch C f = .ok t) (hne : pyStrip t ≠ "")
    (hllm : C.llm [("system", systemPrompt), ("user", t)] = .ok r) :
    (processFile C f).row.category = pyStrip r := by
  unfold processFile
  rw [hext]
  dsimp only
  rw [if_neg hne]
  unfold process_with_llm
  rw [hllm]

/-- Witness for C7: a padded free-text response outside the two-label set
is recorded verbatim (trimmed) as the category. -/
theorem C7_category_verbatim_witness :
    extractDispatch CWfree ⟨"a.pdf", 0⟩ = .ok "FINAL JUDGMENT" ∧
    pyStrip "FINAL JUDGMENT" ≠ "" ∧
    CWfree.llm [("system", systemPrompt), ("user", "FINAL JUDGMENT")] =
      .ok "  This document is a Judgement.  " ∧
    (processFile CWfree ⟨"a.pdf", 0⟩).row.category = "This document is a Judgement." := by
  refine ⟨rfl, by decide, rfl, ?_⟩
  rw [C7_category_verbatim CWfree ⟨"a.pdf", 0⟩ "FINAL JUDGMENT"
    "  This document is a Judgement.  " rfl (by decide) rfl]
  rfl

/-- The percent rendering of the concrete confidence 0.873 evaluates to
"87.30%". -/
theorem formatPercent_0873 : ModelVariant.formatPercent (873/1000) = "87.30%" := by
  norm_num [ModelVariant.formatPercent, round_eq]
  rfl

/-- C8: in the model-based variant, a collaborator response with zero
classified documents yields the row category exactly "Unclassified" with
confidence exactly "N/A"; a response with a classified document yields its
declared type and its confidence score formatted as a percentage. -/
theorem C8_model_based_rows {γ : Type} (classify : γ → Except String ModelVariant.ClassifyResult)
    (f : UploadedFile γ) (result : ModelVariant.ClassifyResult)
    (h : classify f.bytes = .ok result) :
    (result.documents = [] →
      ModelVariant.classifyFile classify f = ⟨f.name, "Unclassified", some "N/A"⟩) ∧
    (∀ doc rest, result.documents = doc :: rest →
      ModelVariant.classifyFile classify f =
        ⟨f.name, doc.doc_type, some (ModelVariant.formatPercent doc.confidence)⟩) := by
  constructor
  · intro hdocs
    unfold ModelVariant.classifyFile
    rw [h]
    dsimp only
    rw [hdocs]
  · intro doc rest hdocs
    unfold ModelVariant.classifyFile
    rw [h]
    dsimp only
    rw [hdocs]

/-- Witness for C8: an empty response yields the "Unclassified"/"N/A" row;
a single "Judgement" document with confidence 0.873 yields the row with
confidence "87.30%". -/
theorem C8_model_based_rows_witness :
    ModelVariant.classifyEmpty 0 = .ok ⟨[]⟩ ∧
    ModelVariant.classifyFile ModelVariant.classifyEmpty ⟨"a.pdf", 0⟩ =
      ⟨"a.pdf", "Unclassified", some "N/A"⟩ ∧
    ModelVariant.classifyFile ModelVariant.classifyJudgement ⟨"b.pdf", 0⟩ =
      ⟨"b.pdf", "Judgement", some "87.30%"⟩ := by
  refine ⟨rfl,
    (C8_model_based_rows ModelVariant.classifyEmpty ⟨"a.pdf", 0⟩ ⟨[]⟩ rfl).1 rfl, ?_⟩
  rw [(C8_model_based_rows ModelVariant.classifyJudgement ⟨"b.pdf", 0⟩
    ⟨[⟨"Judgement", 873/1000⟩]⟩ rfl).2 ⟨"Judgement", 873/1000⟩ [] rfl]
  rw [formatPercent_0873]

/-- C9 counterexample: in a concrete successful one-file batch the single
row has no confidence/diagnostic field at all — the appended dict holds
only "File Name" and "Category" — refuting that every row contains a
confidence/diagnostic field. -/
theorem C9_cex_no_confidence_field :
    ¬ ∀ r ∈ processBatch CWerr [⟨"a.pdf", (1 : Nat)⟩], r.confidence.isSome = true := by
  decide

/-- C9 (amended): every result row contains a file name (one of the input
files' names) and a category, but the active pipeline never emits a
confidence/diagnostic field on any row. -/
theorem C9_amended_row_fields (C : Collaborators β) (files : List (UploadedFile β))
    (r : ResultRow) (hr : r ∈ processBatch C files) :
    r.fileName ∈ files.map UploadedFile.name ∧ r.confidence = none := by
  rcases List.mem_map.mp hr with ⟨f, hf, hfr⟩
  cases hfr
  constructor
  · exact List.mem_map.mpr ⟨f, hf, ((processFile_shape C f).1).symm⟩
  · exact (processFile_shape C f).2.1

/-- Witness for C9 (amended): the row of a concrete one-file batch carries
the input file's name and no confidence field. -/
theorem C9_amended_row_fields_witness :
    (⟨"a.pdf", "Judgement", none⟩ : ResultRow) ∈ processBatch CWerr [⟨"a.pdf", (1 : Nat)⟩] ∧
    ("a.pdf" ∈ [(⟨"a.pdf", (1 : Nat)⟩ : UploadedFile Nat)].map UploadedFile.name ∧
      (⟨"a.pdf", "Judgement", none⟩ : ResultRow).confidence = none) :=
  ⟨by decide, C9_amended_row_fields CWerr [⟨"a.pdf", 1⟩] ⟨"a.pdf", "Judgement", none⟩ (by decide)⟩

/-- C10: the extraction path is decided solely by the file's name — the
docx flag is the same whatever the bytes, it is set iff the lowercased name
ends with ".docx", and the dispatch sends docx-named files to docx
extraction and every other file whole to the OCR collaborator. -/
theorem C10_dispatch_by_name (C : Collaborators β) (nm : String) (b b' : β) :
    (processFile C ⟨nm, b⟩).usedDocx = (processFile C ⟨nm, b'⟩).usedDocx ∧
    ((processFile C ⟨nm, b⟩).usedDocx = true ↔ pyEndsWith (pyLower nm) ".docx" = true) ∧
    (pyEndsWith (pyLower nm) ".docx" = true →
      extractDispatch C ⟨nm, b⟩ = extract_text_from_docx C b) ∧
    (pyEndsWith (pyLower nm) ".docx" = false →
      extractDispatch C ⟨nm, b⟩ = extract_text_from_file C b) := by
  refine ⟨?_, ?_, ?_, ?_⟩
  · rw [(processFile_shape C ⟨nm, b⟩).2.2, (processFile_shape C ⟨nm, b'⟩).2.2]
  · rw [(processFile_shape C ⟨nm, b⟩).2.2]
  · intro h
    unfold extractDispatch
    rw [if_pos h]
  · intro h
    unfold extractDispatch
    rw [if_neg (by simp [h])]

/-- Witness for C10: a file named "Judgment.DOCX" is routed to docx
extraction, a file named "scan.pdf" to whole-file OCR. -/
theorem C10_dispatch_by_name_witness :
    pyEndsWith (pyLower "Judgment.DOCX") ".docx" = true ∧
    extractDispatch CWerr ⟨"Judgment.DOCX", (0 : Nat)⟩ = extract_text_from_docx CWerr 0 ∧
    pyEndsWith (pyLower "scan.pdf") ".docx" = false ∧
    extractDispatch CWerr ⟨"scan.pdf", (0 : Nat)⟩ = extract_text_from_file CWerr 0 :=
  ⟨by decide, (C10_dispatch_by_name CWerr "Judgment.DOCX" 0 1).2.2.1 (by decide),
    by decide, (C10_dispatch_by_name CWerr "scan.pdf" 0 1).2.2.2 (by decide)⟩

end DocIntel
